import Mathlib

/-!
Shallow embedding of `src/homework.py`, a fitness-tracker calculator.

Modelling conventions:
* Python numbers (ints and floats) are modelled as exact rationals `ℚ`.
  Every concrete value appearing in the spec's scenarios is an exact
  dyadic/decimal rational, so exact arithmetic agrees with IEEE doubles
  on the quantities the claims mention.
* Python exceptions are modelled with `Except PyErr`: `ZeroDivisionError`
  becomes `PyErr.zeroDivision`, the `NotImplementedError` raised by the
  abstract base method becomes `PyErr.notImplemented`, and a format-spec
  mismatch becomes `PyErr.formatMismatch`.
* The class hierarchy `Training` / `Running` / `SportsWalking` / `Swimming`
  becomes one inductive type with four constructors; note that in the
  source `__metaclass__ = ABCMeta` (Python-2 style) does not actually make
  the class abstract in Python 3, so the base class is instantiable and is
  kept as a constructor.
* Python `/` on numbers is checked division (`pydiv`), and `//` on floats
  is checked floor division (`pyfloordiv`).
-/

inductive PyErr where
  | zeroDivision
  | notImplemented
  | formatMismatch
  deriving DecidableEq, Repr

/-- Python `a / b`: raises `ZeroDivisionError` when `b = 0`. -/
def pydiv (a b : ℚ) : Except PyErr ℚ :=
  if b = 0 then .error .zeroDivision else .ok (a / b)

/-- Python float `a // b`: floor of the true quotient; raises on `b = 0`. -/
def pyfloordiv (a b : ℚ) : Except PyErr ℚ :=
  if b = 0 then .error .zeroDivision else .ok (⌊a / b⌋ : ℤ)

/-- The class hierarchy rooted at `Training` in `homework.py`.
`base` is a directly-instantiated `Training` (possible in Python 3 despite
the `__metaclass__ = ABCMeta` line); the other three constructors carry the
fields set by the corresponding `__init__`. -/
inductive Training where
  | base (action duration weight : ℚ)
  | running (action duration weight : ℚ)
  | sportsWalking (action duration weight height : ℚ)
  | swimming (action duration weight length_pool count_pool : ℚ)
  deriving DecidableEq, Repr

namespace Training

def action : Training → ℚ
  | .base a _ _ => a
  | .running a _ _ => a
  | .sportsWalking a _ _ _ => a
  | .swimming a _ _ _ _ => a

def duration : Training → ℚ
  | .base _ d _ => d
  | .running _ d _ => d
  | .sportsWalking _ d _ _ => d
  | .swimming _ d _ _ _ => d

def weight : Training → ℚ
  | .base _ _ w => w
  | .running _ _ w => w
  | .sportsWalking _ _ w _ => w
  | .swimming _ _ w _ _ => w

/-- `Training.M_IN_KM = 1000`. -/
def M_IN_KM : ℚ := 1000

/-- `Training.M_IN_HOUR = 60`. -/
def M_IN_HOUR : ℚ := 60

/-- `LEN_STEP`: `0.65` on the base class, overridden to `1.38` by `Swimming`. -/
def LEN_STEP : Training → ℚ
  | .swimming _ _ _ _ _ => 138 / 100
  | _ => 65 / 100

/-- `self.__class__.__name__`. -/
def className : Training → String
  | .base _ _ _ => "Training"
  | .running _ _ _ => "Running"
  | .sportsWalking _ _ _ _ => "SportsWalking"
  | .swimming _ _ _ _ _ => "Swimming"

/-- `Training.get_distance`: `self.action * self.LEN_STEP / self.M_IN_KM`.
The divisor is the constant 1000, so this never raises. -/
def get_distance (t : Training) : ℚ :=
  t.action * t.LEN_STEP / M_IN_KM

/-- `get_mean_speed`: the base formula `self.get_distance() / self.duration`,
overridden by `Swimming` to
`self.length_pool * self.count_pool / self.M_IN_KM / self.duration`. -/
def get_mean_speed : Training → Except PyErr ℚ
  | .swimming _ d _ lp cp => pydiv (lp * cp / M_IN_KM) d
  | t => pydiv t.get_distance t.duration

/-- `get_spent_calories`: abstract on the base class (raises
`NotImplementedError`), overridden by each of the three subclasses with its
own formula. -/
def get_spent_calories (t : Training) : Except PyErr ℚ :=
  match t with
  | .base _ _ _ => .error .notImplemented
  | .running _ d w => do
      let ms ← t.get_mean_speed
      pure ((18 * ms - 20) * w / M_IN_KM * (d * M_IN_HOUR))
  | .sportsWalking _ d w h => do
      let ms ← t.get_mean_speed
      let fd ← pyfloordiv (ms ^ 2) h
      pure ((35 / 1000 * w + fd * (29 / 1000) * w) * (d * M_IN_HOUR))
  | .swimming _ _ w _ _ => do
      let ms ← t.get_mean_speed
      pure ((ms + 11 / 10) * 2 * w)

end Training

/-- A constructed `InfoMessage`'s five data fields.  The sixth dataclass
field `TEXT_MESSAGE` always holds its default (the template string), since
`show_training_info` passes only these five arguments. -/
structure InfoMessage where
  training_type : String
  duration : ℚ
  distance : ℚ
  speed : ℚ
  calories : ℚ
  deriving DecidableEq, Repr

namespace Training

/-- `Training.show_training_info`: builds the `InfoMessage` from the class
name, the stored duration and the three derived quantities, evaluating the
constructor arguments left to right as Python does. -/
def show_training_info (t : Training) : Except PyErr InfoMessage := do
  let dist := t.get_distance
  let ms ← t.get_mean_speed
  let cal ← t.get_spent_calories
  pure ⟨t.className, t.duration, dist, ms, cal⟩

end Training

/-- Result of `read_package`: a constructed `Training`, the `ValueError`
raised on an unknown workout type (with its message), or the `TypeError`
Python raises when `*data` does not match the constructor's arity. -/
inductive ReadResult where
  | ok (t : Training)
  | valueError (msg : String)
  | typeError
  deriving DecidableEq, Repr

/-- `read_package(workout_type, data)`: dispatches on the fixed mapping
SWM/RUN/WLK, splatting `data` into the constructor; unknown codes raise
`ValueError` with a message beginning with the offending code. -/
def read_package (workout_type : String) (data : List ℚ) : ReadResult :=
  if workout_type = "SWM" then
    match data with
    | [a, d, w, lp, cp] => .ok (.swimming a d w lp cp)
    | _ => .typeError
  else if workout_type = "RUN" then
    match data with
    | [a, d, w] => .ok (.running a d w)
    | _ => .typeError
  else if workout_type = "WLK" then
    match data with
    | [a, d, w, h] => .ok (.sportsWalking a d w h)
    | _ => .typeError
  else
    .valueError (workout_type ++ " is inappropriate value for training type. Check supported_workout_types in read_package() function.")

/-!  The metrics formatter: Python's `str.format` applied to
`InfoMessage.TEXT_MESSAGE` with the six `asdict` values as positional
arguments.  `:.3f` renders a number with exactly three digits after the
decimal point, rounding half to even (CPython's float formatting). -/

/-- Round a rational to the nearest integer, ties to even. -/
def roundHalfEven (q : ℚ) : ℤ :=
  if q - ⌊q⌋ < 1 / 2 then ⌊q⌋
  else if 1 / 2 < q - ⌊q⌋ then ⌊q⌋ + 1
  else if ⌊q⌋ % 2 = 0 then ⌊q⌋ else ⌊q⌋ + 1

/-- The decimal digit character for `n % 10`. -/
def digitChar (n : ℕ) : Char := Char.ofNat (48 + n % 10)

/-- Three-digit zero-padded rendering of `n % 1000`
(hundreds, tens, ones digits). -/
def pad3 (n : ℕ) : String :=
  String.mk [digitChar (n / 100), digitChar (n / 10), digitChar n]

/-- Python `format(q, ".3f")` on an exact rational: sign, integer part,
a dot, then exactly three fractional digits (round half to even). -/
def formatFixed3 (q : ℚ) : String :=
  (if q < 0 then "-" else "") ++
    toString ((roundHalfEven (|q| * 1000)).toNat / 1000) ++ "." ++
    pad3 ((roundHalfEven (|q| * 1000)).toNat % 1000)

/-- A Python value passed positionally to `str.format`. -/
inductive PyVal where
  | s (v : String)
  | q (v : ℚ)
  deriving DecidableEq, Repr

/-- Interpretation of a plain `\x7b0\x7d` placeholder: a string renders as
itself.  (A number would render via Python `str`, which this embedding does
not model; that branch is never reached since argument 0 is always the
class name.) -/
def fmtPlain : PyVal → Except PyErr String
  | .s v => .ok v
  | .q _ => .error .formatMismatch

/-- Interpretation of a `:.3f` placeholder: Python raises `ValueError`
when the argument is a string. -/
def fmtFixed3 : PyVal → Except PyErr String
  | .q v => .ok (formatFixed3 v)
  | .s _ => .error .formatMismatch

/-- The raw `TEXT_MESSAGE` template (a sixth dataclass field, always at
its default value in this program). -/
def InfoMessage.TEXT_MESSAGE : String :=
  "Тип тренировки: \x7b0\x7d; Длительность: \x7b1:.3f\x7d ч.; " ++
  "Дистанция: \x7b2:.3f\x7d км; Ср. скорость: \x7b3:.3f\x7d км/ч; " ++
  "Потрачено ккал: \x7b4:.3f\x7d."

/-- `TEXT_MESSAGE.format(*args)`: the template references positions 0
through 4 only, fetching each from the positional argument list. -/
def formatTEXT_MESSAGE (args : List PyVal) : Except PyErr String := do
  let a0 ← fmtPlain (args.getD 0 (.s ""))
  let a1 ← fmtFixed3 (args.getD 1 (.s ""))
  let a2 ← fmtFixed3 (args.getD 2 (.s ""))
  let a3 ← fmtFixed3 (args.getD 3 (.s ""))
  let a4 ← fmtFixed3 (args.getD 4 (.s ""))
  pure ("Тип тренировки: " ++ a0 ++ "; Длительность: " ++ a1 ++
    " ч.; Дистанция: " ++ a2 ++ " км; Ср. скорость: " ++ a3 ++
    " км/ч; Потрачено ккал: " ++ a4 ++ ".")

/-- `asdict(self).values()`: the six dataclass fields in declaration
order — the five data fields followed by the `TEXT_MESSAGE` template
itself. -/
def InfoMessage.asdictValues (m : InfoMessage) : List PyVal :=
  [.s m.training_type, .q m.duration, .q m.distance, .q m.speed,
    .q m.calories, .s InfoMessage.TEXT_MESSAGE]

/-- `InfoMessage.get_message`:
`self.TEXT_MESSAGE.format(*asdict(self).values())`. -/
def InfoMessage.get_message (m : InfoMessage) : Except PyErr String :=
  formatTEXT_MESSAGE m.asdictValues

/-- A string ending in a decimal point followed by exactly three digit
characters. -/
def endsWithThreeFracDigits (s : String) : Prop :=
  ∃ pre d1 d2 d3, s = pre ++ "." ++ String.mk [d1, d2, d3] ∧
    d1.isDigit = true ∧ d2.isDigit = true ∧ d3.isDigit = true

/-- Evaluation rule for `formatFixed3` on a nonnegative rational whose
scaled rounding is known. -/
theorem formatFixed3_nonneg (q : ℚ) (n : ℕ) (h1 : 0 ≤ q)
    (h2 : roundHalfEven (q * 1000) = (n : ℤ)) :
    formatFixed3 q = toString (n / 1000) ++ "." ++ pad3 (n % 1000) := by
  unfold formatFixed3
  rw [if_neg (not_lt.mpr h1), abs_of_nonneg h1, h2]
  simp

theorem digitChar_isDigit (n : ℕ) : (digitChar n).isDigit = true := by
  have h : n % 10 < 10 := Nat.mod_lt _ (by norm_num)
  unfold digitChar
  interval_cases hk : n % 10 <;> decide

theorem formatFixed3_shape (q : ℚ) : endsWithThreeFracDigits (formatFixed3 q) :=
  ⟨(if q < 0 then "-" else "") ++ toString ((roundHalfEven (|q| * 1000)).toNat / 1000),
    digitChar ((roundHalfEven (|q| * 1000)).toNat % 1000 / 100),
    digitChar ((roundHalfEven (|q| * 1000)).toNat % 1000 / 10),
    digitChar ((roundHalfEven (|q| * 1000)).toNat % 1000),
    rfl, digitChar_isDigit _, digitChar_isDigit _, digitChar_isDigit _⟩

theorem get_message_eq (m : InfoMessage) :
    m.get_message = .ok ("Тип тренировки: " ++ m.training_type ++
      "; Длительность: " ++ formatFixed3 m.duration ++
      " ч.; Дистанция: " ++ formatFixed3 m.distance ++
      " км; Ср. скорость: " ++ formatFixed3 m.speed ++
      " км/ч; Потрачено ккал: " ++ formatFixed3 m.calories ++ ".") := by
  simp [InfoMessage.get_message, InfoMessage.asdictValues, formatTEXT_MESSAGE,
    fmtPlain, fmtFixed3, Except.bind, bind, pure, Except.pure, List.getD]

/-!  Helper lemmas about the shapes `read_package` can return and about
which errors each variant's calorie computation can raise. -/

theorem read_package_ok_shape {code : String} {data : List ℚ} {t : Training}
    (hok : read_package code data = .ok t) :
    (∃ a d w lp cp, t = .swimming a d w lp cp) ∨
    (∃ a d w, t = .running a d w) ∨
    (∃ a d w h, t = .sportsWalking a d w h) := by
  unfold read_package at hok
  split at hok
  · split at hok <;>
      first
        | (injection hok with hok
           subst hok
           exact .inl ⟨_, _, _, _, _, rfl⟩)
        | simp at hok
  · split at hok
    · split at hok <;>
        first
          | (injection hok with hok
             subst hok
             exact .inr (.inl ⟨_, _, _, rfl⟩))
          | simp at hok
    · split at hok
      · split at hok <;>
          first
            | (injection hok with hok
               subst hok
               exact .inr (.inr ⟨_, _, _, _, rfl⟩))
            | simp at hok
      · simp at hok

theorem running_calories_not_notImplemented (a d w : ℚ) :
    (Training.running a d w).get_spent_calories ≠ .error .notImplemented := by
  by_cases hd : d = 0 <;>
    simp [Training.get_spent_calories, Training.get_mean_speed, Training.get_distance,
      Training.action, Training.duration, Training.weight, Training.LEN_STEP,
      Training.M_IN_KM, Training.M_IN_HOUR, pydiv, hd, Except.bind, bind, pure,
      Except.pure]

theorem walking_calories_not_notImplemented (a d w h : ℚ) :
    (Training.sportsWalking a d w h).get_spent_calories ≠ .error .notImplemented := by
  by_cases hd : d = 0
  · simp [Training.get_spent_calories, Training.get_mean_speed, Training.get_distance,
      Training.action, Training.duration, Training.weight, Training.LEN_STEP,
      Training.M_IN_KM, Training.M_IN_HOUR, pydiv, pyfloordiv, hd, Except.bind, bind,
      pure, Except.pure]
  · by_cases hh : h = 0 <;>
      simp [Training.get_spent_calories, Training.get_mean_speed, Training.get_distance,
        Training.action, Training.duration, Training.weight, Training.LEN_STEP,
        Training.M_IN_KM, Training.M_IN_HOUR, pydiv, pyfloordiv, hd, hh, Except.bind,
        bind, pure, Except.pure]

theorem swimming_calories_not_notImplemented (a d w lp cp : ℚ) :
    (Training.swimming a d w lp cp).get_spent_calories ≠ .error .notImplemented := by
  by_cases hd : d = 0 <;>
    simp [Training.get_spent_calories, Training.get_mean_speed, Training.action,
      Training.duration, Training.weight, Training.M_IN_KM, pydiv, hd, Except.bind,
      bind, pure, Except.pure]

/-- C1 (amended): every `Running` activity computes
`(18 * mean_speed - 20) * weight / 1000 * (duration * 60)` calories; for
the input ("RUN", [15000, 1, 75]) this evaluates to 699.750 kcal — not
the 644.625 the spec asserts — and the distance is 9.750 km. -/
theorem C1_running_calorie_formula (a d w : ℚ) (hd : d ≠ 0) :
    (∃ ms, (Training.running a d w).get_mean_speed = .ok ms ∧
      (Training.running a d w).get_spent_calories =
        .ok ((18 * ms - 20) * w / 1000 * (d * 60))) ∧
    read_package "RUN" [15000, 1, 75] = .ok (.running 15000 1 75) ∧
    (Training.running 15000 1 75).get_spent_calories = .ok (69975 / 100) ∧
    (Training.running 15000 1 75).get_distance = 9750 / 1000 := by
  refine ⟨⟨a * (65 / 100) / 1000 / d, ?_, ?_⟩, by simp [read_package], ?_, ?_⟩
  · simp [Training.get_mean_speed, Training.get_distance, Training.action,
      Training.duration, Training.LEN_STEP, Training.M_IN_KM, pydiv, hd]
  · simp [Training.get_spent_calories, Training.get_mean_speed, Training.get_distance,
      Training.action, Training.duration, Training.weight, Training.LEN_STEP,
      Training.M_IN_KM, Training.M_IN_HOUR, pydiv, hd, Except.bind, bind, pure,
      Except.pure]
  · norm_num [Training.get_spent_calories, Training.get_mean_speed,
      Training.get_distance, Training.action, Training.duration, Training.weight,
      Training.LEN_STEP, Training.M_IN_KM, Training.M_IN_HOUR, pydiv, Except.bind,
      bind, pure, Except.pure]
  · norm_num [Training.get_distance, Training.LEN_STEP, Training.M_IN_KM,
      Training.action]

/-- C1 counterexample: the code returns 699.750 kcal for
("RUN", [15000, 1, 75]), not 644.625 as the claim states. -/
theorem C1_spec_value_refuted :
    read_package "RUN" [15000, 1, 75] = .ok (.running 15000 1 75) ∧
    (Training.running 15000 1 75).get_spent_calories = .ok (69975 / 100) ∧
    (Training.running 15000 1 75).get_spent_calories ≠ .ok (644625 / 1000) := by
  have hval : (Training.running 15000 1 75).get_spent_calories = .ok (69975 / 100) := by
    norm_num [Training.get_spent_calories, Training.get_mean_speed,
      Training.get_distance, Training.action, Training.duration, Training.weight,
      Training.LEN_STEP, Training.M_IN_KM, Training.M_IN_HOUR, pydiv, Except.bind,
      bind, pure, Except.pure]
  refine ⟨by simp [read_package], hval, ?_⟩
  rw [hval]
  simp only [ne_eq, Except.ok.injEq]
  norm_num

theorem C1_witness :
    read_package "RUN" [15000, 1, 75] = .ok (.running 15000 1 75) :=
  (C1_running_calorie_formula 1 1 1 (by norm_num)).2.1

/-- C2: every `SportsWalking` activity computes
`(0.035 * weight + floor(mean_speed ^ 2 / height) * 0.029 * weight) *
(duration * 60)` calories, the squared-speed term using floor division;
for ("WLK", [9000, 1, 75, 180]) this is 157.500 kcal since
`floor(5.85 ^ 2 / 180) = 0`. -/
theorem C2_walking_calorie_formula (a d w h : ℚ) (hd : d ≠ 0) (hh : h ≠ 0) :
    (∃ ms, (Training.sportsWalking a d w h).get_mean_speed = .ok ms ∧
      (Training.sportsWalking a d w h).get_spent_calories =
        .ok ((35 / 1000 * w + (⌊ms ^ 2 / h⌋ : ℚ) * (29 / 1000) * w) * (d * 60))) ∧
    read_package "WLK" [9000, 1, 75, 180] = .ok (.sportsWalking 9000 1 75 180) ∧
    (Training.sportsWalking 9000 1 75 180).get_spent_calories = .ok (1575 / 10) ∧
    (⌊((117 : ℚ) / 20) ^ 2 / 180⌋ : ℤ) = 0 := by
  refine ⟨⟨a * (65 / 100) / 1000 / d, ?_, ?_⟩, by simp [read_package], ?_, by norm_num⟩
  · simp [Training.get_mean_speed, Training.get_distance, Training.action,
      Training.duration, Training.LEN_STEP, Training.M_IN_KM, pydiv, hd]
  · simp [Training.get_spent_calories, Training.get_mean_speed, Training.get_distance,
      Training.action, Training.duration, Training.weight, Training.LEN_STEP,
      Training.M_IN_KM, Training.M_IN_HOUR, pydiv, pyfloordiv, hd, hh, Except.bind,
      bind, pure, Except.pure]
  · norm_num [Training.get_spent_calories, Training.get_mean_speed,
      Training.get_distance, Training.action, Training.duration, Training.weight,
      Training.LEN_STEP, Training.M_IN_KM, Training.M_IN_HOUR, pydiv, pyfloordiv,
      Except.bind, bind, pure, Except.pure]

theorem C2_witness :
    read_package "WLK" [9000, 1, 75, 180] = .ok (.sportsWalking 9000 1 75 180) :=
  (C2_walking_calorie_formula 1 1 1 1 (by norm_num) (by norm_num)).2.1

/-- C3: `Swimming` overrides the mean speed to
`length_pool * count_pool / 1000 / duration`, computes
`(mean_speed + 1.1) * 2 * weight` calories, and uses step length 1.38 in
the distance; for ("SWM", [720, 1, 80, 25, 40]) the speed is 1.000, the
calories are 336.000 and the distance is `720 * 1.38 / 1000`. -/
theorem C3_swimming_formulas (a d w lp cp : ℚ) (hd : d ≠ 0) :
    (Training.swimming a d w lp cp).get_mean_speed = .ok (lp * cp / 1000 / d) ∧
    (∃ ms, (Training.swimming a d w lp cp).get_mean_speed = .ok ms ∧
      (Training.swimming a d w lp cp).get_spent_calories =
        .ok ((ms + 11 / 10) * 2 * w)) ∧
    (Training.swimming a d w lp cp).get_distance = a * (138 / 100) / 1000 ∧
    (Training.swimming 720 1 80 25 40).get_mean_speed = .ok 1 ∧
    (Training.swimming 720 1 80 25 40).get_spent_calories = .ok 336 ∧
    (Training.swimming 720 1 80 25 40).get_distance = 720 * (138 / 100) / 1000 := by
  refine ⟨?_, ⟨lp * cp / 1000 / d, ?_, ?_⟩, ?_, ?_, ?_, ?_⟩
  · simp [Training.get_mean_speed, Training.M_IN_KM, pydiv, hd]
  · simp [Training.get_mean_speed, Training.M_IN_KM, pydiv, hd]
  · simp [Training.get_spent_calories, Training.get_mean_speed, Training.weight,
      Training.M_IN_KM, pydiv, hd, Except.bind, bind, pure, Except.pure]
  · norm_num [Training.get_distance, Training.LEN_STEP, Training.M_IN_KM,
      Training.action]
  · norm_num [Training.get_mean_speed, Training.M_IN_KM, pydiv]
  · norm_num [Training.get_spent_calories, Training.get_mean_speed, Training.weight,
      Training.M_IN_KM, pydiv, Except.bind, bind, pure, Except.pure]
  · norm_num [Training.get_distance, Training.LEN_STEP, Training.M_IN_KM,
      Training.action]

theorem C3_witness :
    (Training.swimming 720 1 80 25 40).get_mean_speed = .ok 1 :=
  (C3_swimming_formulas 720 1 80 25 40 (by norm_num)).2.2.2.1

/-- C4: `Running` and `SportsWalking` use the base computations:
distance is `action * 0.65 / 1000` and mean speed is distance divided by
duration (when the duration is nonzero). -/
theorem C4_base_distance_speed (a d w h : ℚ) :
    (Training.running a d w).get_distance = a * (65 / 100) / 1000 ∧
    (Training.sportsWalking a d w h).get_distance = a * (65 / 100) / 1000 ∧
    (d ≠ 0 →
      (Training.running a d w).get_mean_speed =
        .ok ((Training.running a d w).get_distance / d) ∧
      (Training.sportsWalking a d w h).get_mean_speed =
        .ok ((Training.sportsWalking a d w h).get_distance / d)) := by
  refine ⟨?_, ?_, fun hd => ⟨?_, ?_⟩⟩
  · simp [Training.get_distance, Training.LEN_STEP, Training.M_IN_KM, Training.action]
  · simp [Training.get_distance, Training.LEN_STEP, Training.M_IN_KM, Training.action]
  · simp [Training.get_mean_speed, Training.duration, pydiv, hd]
  · simp [Training.get_mean_speed, Training.duration, pydiv, hd]

theorem C4_witness :
    (Training.running 15000 1 75).get_mean_speed =
      .ok ((Training.running 15000 1 75).get_distance / 1) :=
  ((C4_base_distance_speed 15000 1 75 0).2.2 (by norm_num)).1

/-- C5: `read_package` maps SWM, RUN and WLK to the matching constructor
and raises `ValueError` on any other code, with a message carrying the
offending code; in the error case no activity is returned. -/
theorem C5_dispatch (code : String) (data : List ℚ) (a d w h lp cp : ℚ)
    (h1 : code ≠ "SWM") (h2 : code ≠ "RUN") (h3 : code ≠ "WLK") :
    read_package "SWM" [a, d, w, lp, cp] = .ok (.swimming a d w lp cp) ∧
    read_package "RUN" [a, d, w] = .ok (.running a d w) ∧
    read_package "WLK" [a, d, w, h] = .ok (.sportsWalking a d w h) ∧
    read_package code data = .valueError (code ++
      " is inappropriate value for training type. Check supported_workout_types in read_package() function.") ∧
    ∀ t, read_package code data ≠ .ok t := by
  have hmsg : read_package code data = .valueError (code ++
      " is inappropriate value for training type. Check supported_workout_types in read_package() function.") := by
    unfold read_package
    rw [if_neg h1, if_neg h2, if_neg h3]
  refine ⟨by simp [read_package], by simp [read_package], by simp [read_package],
    hmsg, fun t hc => ?_⟩
  rw [hmsg] at hc
  simp at hc

theorem C5_witness :
    read_package "XYZ" [1] = .valueError ("XYZ" ++
      " is inappropriate value for training type. Check supported_workout_types in read_package() function.") :=
  (C5_dispatch "XYZ" [1] 1 1 1 1 1 1 (by decide) (by decide) (by decide)).2.2.2.1

/-- C6: for every `InfoMessage` produced by `show_training_info`, the
rendered message is exactly the fixed template around the five fields,
and each of the four numeric fields is rendered with exactly three
digits after the decimal point. -/
theorem C6_message_template (t : Training) (m : InfoMessage)
    (_hm : t.show_training_info = .ok m) :
    m.get_message = .ok ("Тип тренировки: " ++ m.training_type ++
      "; Длительность: " ++ formatFixed3 m.duration ++
      " ч.; Дистанция: " ++ formatFixed3 m.distance ++
      " км; Ср. скорость: " ++ formatFixed3 m.speed ++
      " км/ч; Потрачено ккал: " ++ formatFixed3 m.calories ++ ".") ∧
    endsWithThreeFracDigits (formatFixed3 m.duration) ∧
    endsWithThreeFracDigits (formatFixed3 m.distance) ∧
    endsWithThreeFracDigits (formatFixed3 m.speed) ∧
    endsWithThreeFracDigits (formatFixed3 m.calories) :=
  ⟨get_message_eq m, formatFixed3_shape _, formatFixed3_shape _,
    formatFixed3_shape _, formatFixed3_shape _⟩

theorem C6_witness :
    (InfoMessage.mk "Swimming" 1 (621 / 625) 1 336).get_message =
      .ok ("Тип тренировки: " ++ "Swimming" ++
        "; Длительность: " ++ formatFixed3 1 ++
        " ч.; Дистанция: " ++ formatFixed3 (621 / 625) ++
        " км; Ср. скорость: " ++ formatFixed3 1 ++
        " км/ч; Потрачено ккал: " ++ formatFixed3 336 ++ ".") :=
  (C6_message_template (.swimming 720 1 80 25 40)
    (InfoMessage.mk "Swimming" 1 (621 / 625) 1 336)
    (by norm_num [Training.show_training_info, Training.get_distance,
      Training.get_mean_speed, Training.get_spent_calories, Training.LEN_STEP,
      Training.M_IN_KM, Training.action, Training.className, Training.duration,
      pydiv, Except.bind, bind, pure, Except.pure])).1

/-- C7: invoking `get_spent_calories` on a directly-instantiated base
`Training` yields the not-implemented error, and no activity returned by
`read_package` can produce that error, since all three constructed
variants override the method. -/
theorem C7_base_abstract_unreachable :
    (∀ a d w, (Training.base a d w).get_spent_calories = .error .notImplemented) ∧
    (∀ code data t, read_package code data = .ok t →
      t.get_spent_calories ≠ .error .notImplemented) := by
  refine ⟨fun a d w => by simp [Training.get_spent_calories],
    fun code data t hok => ?_⟩
  rcases read_package_ok_shape hok with ⟨a, d, w, lp, cp, rfl⟩ | ⟨a, d, w, rfl⟩ |
    ⟨a, d, w, h, rfl⟩
  · exact swimming_calories_not_notImplemented a d w lp cp
  · exact running_calories_not_notImplemented a d w
  · exact walking_calories_not_notImplemented a d w h

theorem C7_witness :
    (Training.swimming 720 1 80 25 40).get_spent_calories ≠ .error .notImplemented :=
  C7_base_abstract_unreachable.2 "SWM" [720, 1, 80, 25, 40]
    (.swimming 720 1 80 25 40) (by simp [read_package])

/-- C8 counterexample: with an arbitrary (here negative) action count the
dispatched activity's distance is negative, refuting `get_distance() >= 0`
for arbitrary numeric arguments. -/
theorem C8_negative_distance :
    read_package "RUN" [-1000, 1, 75] = .ok (.running (-1000) 1 75) ∧
    (Training.running (-1000) 1 75).get_distance < 0 := by
  refine ⟨by simp [read_package], ?_⟩
  norm_num [Training.get_distance, Training.LEN_STEP, Training.M_IN_KM,
    Training.action]

/-- C8 (amended): every activity returned by the dispatcher with a
nonnegative action count has nonnegative distance. -/
theorem C8_distance_nonneg (code : String) (data : List ℚ) (t : Training)
    (hok : read_package code data = .ok t) (ha : 0 ≤ t.action) :
    0 ≤ t.get_distance := by
  have hstep : 0 < t.LEN_STEP := by
    cases t <;> norm_num [Training.LEN_STEP]
  unfold Training.get_distance Training.M_IN_KM
  exact div_nonneg (mul_nonneg ha hstep.le) (by norm_num)

theorem C8_witness : 0 ≤ (Training.running 15000 1 75).get_distance :=
  C8_distance_nonneg "RUN" [15000, 1, 75] (.running 15000 1 75)
    (by simp [read_package]) (by norm_num [Training.action])

/-- C9: a zero duration makes `get_mean_speed` (and hence
`get_spent_calories` and `show_training_info`) fail with a
division-by-zero error on every variant, and a zero height makes
`SportsWalking.get_spent_calories` fail the same way. -/
theorem C9_division_by_zero (a d w h lp cp : ℚ) :
    (d = 0 →
      (Training.running a d w).get_mean_speed = .error .zeroDivision ∧
      (Training.sportsWalking a d w h).get_mean_speed = .error .zeroDivision ∧
      (Training.swimming a d w lp cp).get_mean_speed = .error .zeroDivision ∧
      (Training.running a d w).get_spent_calories = .error .zeroDivision ∧
      (Training.sportsWalking a d w h).get_spent_calories = .error .zeroDivision ∧
      (Training.swimming a d w lp cp).get_spent_calories = .error .zeroDivision ∧
      (Training.running a d w).show_training_info = .error .zeroDivision ∧
      (Training.sportsWalking a d w h).show_training_info = .error .zeroDivision ∧
      (Training.swimming a d w lp cp).show_training_info = .error .zeroDivision) ∧
    (h = 0 →
      (Training.sportsWalking a d w h).get_spent_calories = .error .zeroDivision) := by
  constructor
  · intro hd
    subst hd
    refine ⟨?_, ?_, ?_, ?_, ?_, ?_, ?_, ?_, ?_⟩ <;>
      simp [Training.get_mean_speed, Training.get_spent_calories,
        Training.show_training_info, Training.get_distance, Training.action,
        Training.duration, Training.weight, Training.LEN_STEP, Training.M_IN_KM,
        Training.M_IN_HOUR, Training.className, pydiv, pyfloordiv, Except.bind,
        bind, pure, Except.pure]
  · intro hh
    subst hh
    by_cases hd : d = 0 <;>
      simp [Training.get_mean_speed, Training.get_spent_calories,
        Training.get_distance, Training.action, Training.duration, Training.weight,
        Training.LEN_STEP, Training.M_IN_KM, Training.M_IN_HOUR, pydiv, pyfloordiv,
        hd, Except.bind, bind, pure, Except.pure]

theorem C9_witness :
    (Training.running 1 0 1).get_mean_speed = .error .zeroDivision ∧
    (Training.sportsWalking 1 1 1 0).get_spent_calories = .error .zeroDivision :=
  ⟨((C9_division_by_zero 1 0 1 1 1 1).1 rfl).1,
    (C9_division_by_zero 1 1 1 0 1 1).2 rfl⟩

/-- C10: the template only references positions 0 through 4, so the sixth
positional argument supplied by `asdict` (the `TEXT_MESSAGE` field) is
ignored, and `get_message` equals the template applied to the five data
fields. -/
theorem C10_surplus_argument_ignored (m : InfoMessage) (extra : PyVal) :
    formatTEXT_MESSAGE ([.s m.training_type, .q m.duration, .q m.distance,
        .q m.speed, .q m.calories] ++ [extra]) =
      formatTEXT_MESSAGE [.s m.training_type, .q m.duration, .q m.distance,
        .q m.speed, .q m.calories] ∧
    m.get_message = formatTEXT_MESSAGE [.s m.training_type, .q m.duration,
      .q m.distance, .q m.speed, .q m.calories] := by
  constructor <;>
    simp [formatTEXT_MESSAGE, InfoMessage.get_message, InfoMessage.asdictValues,
      fmtPlain, fmtFixed3, Except.bind, bind, pure, Except.pure, List.getD]
